import Mathlib

/-!
Shallow embedding of the three demo scripts of the repository
(`examples/hello_gpu.py`, `examples/gpu_performance_demo.py`,
`examples/test_multigpu.py`) and proofs of the specification claims
about them.

The scripts only sequence calls into an external tensor library, so the
embedding models:
  * the OS environment as a partial map from variable names to strings;
  * Python `int(...)` string conversion as a fallible parser;
  * each script's control flow (exit codes, the probe's broad error
    boundary, the multi-process script's device-count branches) as
    explicit functions on the branch inputs;
  * each timed code region as a small event trace, so that the presence
    or absence of a device-synchronize call before a timing stop is a
    decidable property of the trace;
  * the shape arithmetic of the library operations the scripts report
    (dense matrix multiply, 2-D convolution with a 3x3 kernel and
    padding 1);
  * the throughput formulas (TFLOPS, GFLOPS, GB/s) over exact rationals.
-/

/-! ## Python `int(...)` on strings, and the OS environment -/

/-- The OS environment: a partial map from variable names to values,
as read by `os.environ.get`. -/
abbrev Env := String → Option String

def digitVal (c : Char) : Nat := c.toNat - 48

/-- Parse a nonempty all-digit character list as a natural number. -/
def parseDigits (cs : List Char) : Option Nat :=
  if cs = [] then none
  else if cs.all Char.isDigit then
    some (cs.foldl (fun n c => n * 10 + digitVal c) 0)
  else none

/-- Leading/trailing whitespace removal, as Python `int` applies to its
string argument. -/
def pyStrip (cs : List Char) : List Char :=
  ((cs.dropWhile Char.isWhitespace).reverse.dropWhile Char.isWhitespace).reverse

/-- Python `int(s)` for a string `s`: optional surrounding whitespace, an
optional sign, then decimal digits; anything else raises `ValueError`,
modelled as `none`. (Python additionally allows `_` digit grouping,
which none of the claims exercise.) -/
def parsePyInt (s : String) : Option Int :=
  match pyStrip s.toList with
  | '-' :: rest => (parseDigits rest).map (fun n => -(n : Int))
  | '+' :: rest => (parseDigits rest).map (fun n => (n : Int))
  | cs => (parseDigits cs).map (fun n => (n : Int))

/-- The `ValueError` message produced when `int(s)` fails. -/
def intErrorMsg (s : String) : String :=
  "invalid literal for int with base 10: " ++ s

/-- `int(os.environ.get(name, dflt))`: the integer default is returned
unchanged when the variable is unset; a set value must parse as an
integer or the conversion raises (`hello_gpu.py` lines 66-68). -/
def getIntEnv (env : Env) (name : String) (dflt : Int) : Except String Int :=
  match env name with
  | none => Except.ok dflt
  | some s =>
    match parsePyInt s with
    | some n => Except.ok n
    | none => Except.error (intErrorMsg s)

/-! ## `hello_gpu.py` — the capability probe -/

/-- `test_distributed` (`hello_gpu.py` lines 63-77): reads `WORLD_SIZE`
(default 1), `RANK` (default 0), `LOCAL_RANK` (default 0), in that
order; the first failing `int` conversion raises. Returns the triple
`(world_size, rank, local_rank)` it prints. -/
def test_distributed (env : Env) : Except String (Int × Int × Int) :=
  match getIntEnv env "WORLD_SIZE" 1 with
  | Except.error e => Except.error e
  | Except.ok ws =>
    match getIntEnv env "RANK" 0 with
    | Except.error e => Except.error e
    | Except.ok r =>
      match getIntEnv env "LOCAL_RANK" 0 with
      | Except.error e => Except.error e
      | Except.ok lr => Except.ok (ws, r, lr)

/-- The environment variables listed in `show_environment`
(`hello_gpu.py` lines 83-89). -/
def env_vars : List String :=
  ["CUDA_VISIBLE_DEVICES", "NVIDIA_VISIBLE_DEVICES",
   "WORLD_SIZE", "RANK", "LOCAL_RANK"]

/-- The three variables `test_distributed` converts with `int`. -/
def intEnvVars : List String := ["WORLD_SIZE", "RANK", "LOCAL_RANK"]

/-- `show_environment` (`hello_gpu.py` lines 79-93): prints each listed
variable with its value, or the literal `not set` when unset. -/
def show_environment (env : Env) : List (String × String) :=
  env_vars.map fun v => (v, (env v).getD "not set")

/-- Device string chosen by `test_tensor_operations` (`hello_gpu.py`
line 42). -/
def hello_device (cuda : Bool) : String := if cuda then "cuda" else "cpu"

/-- Matrix size used by the probe's smoke test (`hello_gpu.py` line 41). -/
def hello_size : Nat := 1000

/-- Shape of the dense product of an n-by-m and an m-by-k matrix, the
library's `torch.mm` contract. -/
def mm_shape (n : Nat) (_m : Nat) (k : Nat) : List Nat := [n, k]

/-- The result shape the probe reports for `c = torch.mm(a, b)` with two
`hello_size` x `hello_size` operands (`hello_gpu.py` lines 47-56). -/
def hello_mm_report : List Nat := mm_shape hello_size hello_size hello_size

/-- The sequence of checks inside the probe's `try` block
(`hello_gpu.py` lines 99-103): `check_pytorch`, `check_cuda`,
`test_tensor_operations` and `show_environment` are print-only library
queries, total in this model; `test_distributed` is the one step whose
embedded behaviour can raise (on a malformed integer variable). -/
def run_checks (env : Env) : Except String Unit :=
  match test_distributed env with
  | Except.error e => Except.error e
  | Except.ok _ => Except.ok ()

/-- The message `main` prints on the caught exception
(`hello_gpu.py` line 109). -/
def errorBanner (msg : String) : String := "Error: " ++ msg

/-- `main` of the probe (`hello_gpu.py` lines 95-113): a broad
`except Exception` around the whole sequence; on an exception the error
message is printed and 1 returned, otherwise 0. The result is the exit
code paired with the printed failure message, if any. -/
def hello_main (env : Env) : Int × Option String :=
  match run_checks env with
  | Except.ok _ => (0, none)
  | Except.error msg => (1, some (errorBanner msg))

/-! ## Timed code regions and the synchronize-before-stop discipline -/

/-- One event of a timed code region: a `time.time()` timer start or
stop, a library operation, or an explicit `torch.cuda.synchronize()`. -/
inductive TimedEvent where
  | timerStart
  | op (name : String)
  | synchronize
  | timerStop
  deriving DecidableEq

/-- A trace observes the synchronize discipline when every timing stop
is immediately preceded by an explicit device synchronize, so the
recorded elapsed time includes device completion. -/
def syncBeforeEveryStop (tr : List TimedEvent) : Bool :=
  (tr.zip tr.tail).all fun p =>
    match p.2 with
    | TimedEvent.timerStop =>
      match p.1 with
      | TimedEvent.synchronize => true
      | _ => false
    | _ => true

/-- A timed benchmark region of `gpu_performance_demo.py`: start the
timer, run the operation, synchronize when a GPU is in use, stop the
timer (the `start = time.time() ... if self.gpu_available:
torch.cuda.synchronize() ... time.time() - start` pattern). -/
def timedOp (name : String) (gpu : Bool) : List TimedEvent :=
  [TimedEvent.timerStart, TimedEvent.op name]
    ++ (if gpu then [TimedEvent.synchronize] else [])
    ++ [TimedEvent.timerStop]

/-- The probe's timed matrix multiply (`hello_gpu.py` lines 50-53):
`start_time = time.time(); c = torch.mm(a, b); end_time = time.time()`
with no synchronize on any device. -/
def hello_mm_timing (_cuda : Bool) : List TimedEvent :=
  [TimedEvent.timerStart, TimedEvent.op "mm", TimedEvent.timerStop]

/-- Per-run timing of `benchmark_matrix_sizes`
(`gpu_performance_demo.py` lines 78-83). -/
def perf_mm_timing (gpu : Bool) : List TimedEvent := timedOp "mm" gpu

/-- Per-operation timing of `advanced_tensor_operations`
(`gpu_performance_demo.py` lines 229-234). -/
def perf_elementwise_timing (gpu : Bool) : List TimedEvent :=
  timedOp "elementwise_op" gpu

/-- Per-configuration timing of `convolution_performance`
(`gpu_performance_demo.py` lines 314-323). -/
def perf_conv_timing (gpu : Bool) : List TimedEvent := timedOp "conv2d" gpu

/-- Timing of the memory copy in `memory_throughput_test`
(`gpu_performance_demo.py` lines 265-268); the synchronize is
unconditional because the function runs only when a GPU is present. -/
def perf_memcopy_timing : List TimedEvent :=
  [TimedEvent.timerStart, TimedEvent.op "clone",
   TimedEvent.synchronize, TimedEvent.timerStop]

/-- Timing of the whole training loop in `neural_network_training_demo`
(`gpu_performance_demo.py` lines 165-189): `start_time = time.time();
...loop...; training_time = time.time() - start_time`, with no explicit
synchronize before the stop. -/
def perf_training_timing : List TimedEvent :=
  [TimedEvent.timerStart, TimedEvent.op "training_loop",
   TimedEvent.timerStop]

/-- The benchmark script's per-operation timed regions (matrix multiply,
elementwise math, convolution, and — when a GPU is present — the memory
copy). -/
def perfOpTimedTraces (gpu : Bool) : List (List TimedEvent) :=
  [perf_mm_timing gpu, perf_elementwise_timing gpu, perf_conv_timing gpu]
    ++ (if gpu then [perf_memcopy_timing] else [])

/-- Every timed region of the benchmark and probe scripts. -/
def allTimedTraces (gpu : Bool) : List (List TimedEvent) :=
  perfOpTimedTraces gpu ++ [perf_training_timing, hello_mm_timing gpu]

/-! ## `gpu_performance_demo.py` — the benchmark driver -/

/-- The timed workloads of the benchmark driver. -/
inductive Workload where
  | matrixMul
  | training
  | elementwise
  | convolution
  | memoryBandwidth
  deriving DecidableEq

/-- `run_complete_benchmark` (`gpu_performance_demo.py` lines 339-352):
matrix multiply, training loop, elementwise math and convolution run
unconditionally, in that order; `memory_throughput_test` runs only when
`self.gpu_available` is true (and itself returns immediately otherwise,
lines 242-243). -/
def run_complete_benchmark (gpu : Bool) : List Workload :=
  [Workload.matrixMul, Workload.training, Workload.elementwise,
   Workload.convolution]
    ++ (if gpu then [Workload.memoryBandwidth] else [])

/-- Device chosen in `GPUPerformanceDemo.__init__`
(`gpu_performance_demo.py` line 16). -/
def perf_device (gpu : Bool) : String := if gpu then "cuda" else "cpu"

/-- Matrix sizes of `benchmark_matrix_sizes`
(`gpu_performance_demo.py` lines 55-58). -/
def perf_matrix_sizes (gpu : Bool) : List Nat :=
  if gpu then [1000, 2000, 4000, 6000, 8000] else [500, 1000, 2000]

/-- `main` of the benchmark (`gpu_performance_demo.py` lines 377-380)
returns `None`, so the process exits 0 whenever the benchmark sequence
raises nothing; the result is that exit code paired with the workload
sequence run. -/
def perf_main (gpu : Bool) : Int × List Workload :=
  (0, run_complete_benchmark gpu)

/-- Batch size of `convolution_performance`
(`gpu_performance_demo.py` line 288). -/
def conv_batch_size (gpu : Bool) : Nat := if gpu then 32 else 8

/-- One convolution configuration: input channels, output channels,
square image resolution, and the printed description. -/
structure ConvConfig where
  inCh : Nat
  outCh : Nat
  imgSize : Nat
  desc : String
  deriving DecidableEq

/-- The configurations tested by `convolution_performance`
(`gpu_performance_demo.py` lines 291-296). -/
def conv_configs : List ConvConfig :=
  [⟨3, 64, 224, "First conv layer"⟩,
   ⟨64, 128, 112, "Mid conv layer"⟩,
   ⟨256, 512, 56, "Deep conv layer"⟩,
   ⟨512, 1024, 28, "Very deep conv layer"⟩]

/-- Output spatial dimension of the library's 2-D convolution:
`(inDim + 2*padding - kernel) / stride + 1`. -/
def conv2d_out_dim (inDim kernel padding stride : Nat) : Nat :=
  (inDim + 2 * padding - kernel) / stride + 1

/-- The output shape the script prints for one configuration
(`gpu_performance_demo.py` lines 302-303 and 331): input
`(batch, inCh, imgSize, imgSize)` through
`nn.Conv2d(in_ch, out_ch, 3, padding=1)`, stride 1. -/
def reported_conv_shape (gpu : Bool) (c : ConvConfig) : List Nat :=
  [conv_batch_size gpu, c.outCh,
   conv2d_out_dim c.imgSize 3 1 1, conv2d_out_dim c.imgSize 3 1 1]

/-! ## Throughput formulas, over exact rationals -/

/-- TFLOPS of `benchmark_matrix_sizes` (`gpu_performance_demo.py` lines
87-89): `2*size**3 / avg_time / 1e12`. -/
def matmul_tflops (size : Nat) (avgTime : ℚ) : ℚ :=
  2 * (size : ℚ) ^ 3 / avgTime / 10 ^ 12

/-- GFLOPS of `convolution_performance` (`gpu_performance_demo.py`
lines 326-327): `batch * out_ch * img*img * in_ch * 9 / t / 1e9`. -/
def conv_gflops (batch outCh imgSize inCh : Nat) (convTime : ℚ) : ℚ :=
  ((batch : ℚ) * outCh * imgSize * imgSize * inCh * 9) / convTime / 10 ^ 9

/-- GB/s of `memory_throughput_test` (`gpu_performance_demo.py` lines
270-272): `elements * 4 * 2 / copy_time / 1024**3`. -/
def bandwidth_gb_s (elements : Nat) (copyTime : ℚ) : ℚ :=
  ((elements : ℚ) * 4 * 2) / copyTime / 1024 ^ 3

/-! ## `test_multigpu.py` — the multi-process distributed test -/

/-- Actions of `run_gpu_test` and `setup_distributed`/`cleanup_distributed`
(`test_multigpu.py` lines 15-76), in the order performed. -/
inductive DistAction where
  | setEnvVar (name value : String)
  | initProcessGroup (backend : String) (rank worldSize : Nat)
  | setDevice (rank : Nat)
  | matmulTimed
  | allReduce
  | ddpForward
  | destroyProcessGroup
  deriving DecidableEq

/-- `setup_distributed` (`test_multigpu.py` lines 15-24): sets
`MASTER_ADDR` and `MASTER_PORT` in the process environment, initializes
the process group with backend `nccl` and the given rank/world size,
and selects the device. -/
def setup_distributed (rank worldSize : Nat) : List DistAction :=
  [DistAction.setEnvVar "MASTER_ADDR" "localhost",
   DistAction.setEnvVar "MASTER_PORT" "12355",
   DistAction.initProcessGroup "nccl" rank worldSize,
   DistAction.setDevice rank]

/-- `run_gpu_test` (`test_multigpu.py` lines 30-76): distributed setup,
timed matrix multiply, all-reduce, a DDP forward pass, then
`cleanup_distributed`, which destroys the process group. -/
def run_gpu_test (rank worldSize : Nat) : List DistAction :=
  setup_distributed rank worldSize
    ++ [DistAction.matmulTimed, DistAction.allReduce,
        DistAction.ddpForward, DistAction.destroyProcessGroup]

/-- The decision-relevant actions of the multi-process script's `main`. -/
inductive MGAction where
  | runTest (rank worldSize : Nat)
  | spawnProcs (nprocs : Nat)
  deriving DecidableEq

/-- `main` of `test_multigpu.py` (lines 78-109): with no CUDA it prints
an error and returns 1; with fewer than two devices it runs
`run_gpu_test(0, 1)` in the current process and returns 0; otherwise it
spawns one process per device and returns 0. The result is the exit
code paired with the test/spawn actions taken. -/
def multigpu_main (cudaAvailable : Bool) (gpuCount : Nat) : Int × List MGAction :=
  if cudaAvailable = false then (1, [])
  else if gpuCount < 2 then (0, [MGAction.runTest 0 1])
  else (0, [MGAction.spawnProcs gpuCount])

/-! ## Helper lemmas -/

/-- If the probe's check sequence succeeds, `test_distributed` succeeded. -/
theorem test_distributed_ok_of_run_checks (env : Env)
    (h : run_checks env = Except.ok ()) :
    ∃ t, test_distributed env = Except.ok t := by
  unfold run_checks at h
  cases ht : test_distributed env with
  | error e => rw [ht] at h; simp at h
  | ok t => exact ⟨t, rfl⟩

/-- A successful `int(os.environ.get(name, dflt))` on a set variable
means its value parsed as an integer. -/
theorem parse_ok_of_getIntEnv_ok (env : Env) (name s : String) (d n : Int)
    (hset : env name = some s) (hok : getIntEnv env name d = Except.ok n) :
    ∃ m, parsePyInt s = some m := by
  cases h : parsePyInt s with
  | some m => exact ⟨m, rfl⟩
  | none =>
    exfalso
    unfold getIntEnv at hok
    rw [hset] at hok
    simp [h] at hok

/-- If `test_distributed` succeeds, each of the three `int` conversions
succeeded. -/
theorem getIntEnv_ok_of_test_distributed (env : Env) (t : Int × Int × Int)
    (h : test_distributed env = Except.ok t) :
    (∃ a, getIntEnv env "WORLD_SIZE" 1 = Except.ok a)
    ∧ (∃ b, getIntEnv env "RANK" 0 = Except.ok b)
    ∧ (∃ c, getIntEnv env "LOCAL_RANK" 0 = Except.ok c) := by
  unfold test_distributed at h
  cases h1 : getIntEnv env "WORLD_SIZE" 1 with
  | error e => rw [h1] at h; simp at h
  | ok a =>
    rw [h1] at h
    cases h2 : getIntEnv env "RANK" 0 with
    | error e => rw [h2] at h; simp at h
    | ok b =>
      rw [h2] at h
      cases h3 : getIntEnv env "LOCAL_RANK" 0 with
      | error e => rw [h3] at h; simp at h
      | ok c => exact ⟨⟨a, rfl⟩, ⟨b, rfl⟩, ⟨c, rfl⟩⟩

/-! ## Claims -/

/-- Claim C1 (corrected), counterexample to the claim as stated: on a
machine without an accelerator the multi-process script does not exit
with code 0 — `main` returns 1 (`test_multigpu.py` lines 82-84). -/
theorem c1_counterexample : ¬ (multigpu_main false 0).1 = 0 := by decide

/-- Claim C1 (amended): on a machine without an accelerator, the probe
script exits 0 whenever its check sequence raises nothing and the
benchmark driver exits 0, both on their CPU fallback device; the
multi-process script instead returns exit code 1 for every device
count. -/
theorem c1_cpu_exit_codes (env : Env) (hok : run_checks env = Except.ok ()) :
    (hello_main env).1 = 0
    ∧ (perf_main false).1 = 0
    ∧ hello_device false = "cpu"
    ∧ perf_device false = "cpu"
    ∧ ∀ g : Nat, (multigpu_main false g).1 = 1 := by
  refine ⟨?_, by decide, by decide, by decide, ?_⟩
  · simp [hello_main, hok]
  · intro g
    simp [multigpu_main]

/-- Witness for C1's amended theorem, at the empty environment and
device count 0. -/
theorem c1_witness :
    (hello_main (fun _ => none)).1 = 0
    ∧ (multigpu_main false 0).1 = 1 :=
  ⟨(c1_cpu_exit_codes (fun _ => none) rfl).1,
   (c1_cpu_exit_codes (fun _ => none) rfl).2.2.2.2 0⟩

/-- Claim C2 (corrected), counterexample to the claim as stated: the
probe script's timed matrix multiply is one of the two scripts' timed
regions, yet on an accelerator it records the timing stop with no
synchronize after the operation (`hello_gpu.py` lines 50-53). -/
theorem c2_counterexample :
    hello_mm_timing true ∈ allTimedTraces true
    ∧ syncBeforeEveryStop (hello_mm_timing true) = false := by decide

/-- Claim C2 (amended): in the benchmark script every timed
matrix-multiply, elementwise, convolution and memory-copy region on an
accelerator synchronizes after the operation and before the timing
stop; the probe script's timed matrix multiply and the benchmark's
training-loop timing record the stop without an explicit synchronize. -/
theorem c2_sync_discipline :
    (∀ tr ∈ perfOpTimedTraces true, syncBeforeEveryStop tr = true)
    ∧ syncBeforeEveryStop (hello_mm_timing true) = false
    ∧ syncBeforeEveryStop perf_training_timing = false := by decide

/-- Witness for C2's amended theorem, at the benchmark's matrix-multiply
trace. -/
theorem c2_witness : syncBeforeEveryStop (perf_mm_timing true) = true :=
  c2_sync_discipline.1 (perf_mm_timing true) (by decide)

/-- Claim C3 (corrected), counterexample to the claim as stated: on a
CPU-only invocation the benchmark driver does not run the memory copy
bandwidth workload (`gpu_performance_demo.py` lines 351-352). -/
theorem c3_counterexample :
    run_complete_benchmark false ≠
      [Workload.matrixMul, Workload.training, Workload.elementwise,
       Workload.convolution, Workload.memoryBandwidth] := by decide

/-- Claim C3 (amended): the benchmark driver always runs matrix
multiply, the training loop, elementwise math and convolution, in that
fixed order; the memory copy bandwidth workload is appended only when
an accelerator is available. -/
theorem c3_workload_sequence :
    run_complete_benchmark true =
      [Workload.matrixMul, Workload.training, Workload.elementwise,
       Workload.convolution, Workload.memoryBandwidth]
    ∧ run_complete_benchmark false =
      [Workload.matrixMul, Workload.training, Workload.elementwise,
       Workload.convolution] := by decide

/-- Claim C4: the probe's broad error boundary catches every exception
of the check sequence, prints the failure message, and returns exit
code 1; with no exception it returns 0 and prints no failure. -/
theorem c4_error_boundary (env : Env) :
    (∀ msg, run_checks env = Except.error msg →
      hello_main env = (1, some (errorBanner msg)))
    ∧ (run_checks env = Except.ok () → hello_main env = (0, none)) := by
  constructor
  · intro msg h
    simp [hello_main, h]
  · intro h
    simp [hello_main, h]

/-- Witness for C4, at an environment whose `WORLD_SIZE` does not parse
and at the empty environment. -/
theorem c4_witness :
    hello_main (fun v => if v = "WORLD_SIZE" then some "abc" else none)
      = (1, some (errorBanner (intErrorMsg "abc")))
    ∧ hello_main (fun _ => none) = (0, none) :=
  ⟨(c4_error_boundary (fun v => if v = "WORLD_SIZE" then some "abc" else none)).1
      (intErrorMsg "abc") rfl,
   (c4_error_boundary (fun _ => none)).2 rfl⟩

/-- Claim C5: with CUDA available and fewer than two devices, the
multi-process script runs the test in the current process with rank 0
and world size 1, returns 0, and never reaches the spawn call. -/
theorem c5_single_device_fallback (g : Nat) (h1 : 1 ≤ g) (h2 : g < 2) :
    multigpu_main true g = (0, [MGAction.runTest 0 1])
    ∧ ∀ n, MGAction.spawnProcs n ∉ (multigpu_main true g).2 := by
  have hg : g = 1 := by omega
  subst hg
  refine ⟨by decide, ?_⟩
  intro n
  simp [multigpu_main]

/-- Witness for C5, at exactly one device. -/
theorem c5_witness : multigpu_main true 1 = (0, [MGAction.runTest 0 1]) :=
  (c5_single_device_fallback 1 (by decide) (by decide)).1

/-- Claim C6: with all listed variables unset, `test_distributed`
reports world size 1, rank 0 and local rank 0, and the environment
report prints `not set` for every listed variable. -/
theorem c6_env_defaults (env : Env) (h : ∀ v ∈ env_vars, env v = none) :
    test_distributed env = Except.ok (1, 0, 0)
    ∧ show_environment env = env_vars.map (fun v => (v, "not set")) := by
  have h1 := h "CUDA_VISIBLE_DEVICES" (by decide)
  have h2 := h "NVIDIA_VISIBLE_DEVICES" (by decide)
  have h3 := h "WORLD_SIZE" (by decide)
  have h4 := h "RANK" (by decide)
  have h5 := h "LOCAL_RANK" (by decide)
  constructor
  · simp [test_distributed, getIntEnv, h3, h4, h5]
  · simp [show_environment, env_vars, h1, h2, h3, h4, h5]

/-- Witness for C6, at the empty environment. -/
theorem c6_witness :
    test_distributed (fun _ => none) = Except.ok (1, 0, 0)
    ∧ show_environment (fun _ => none)
        = env_vars.map (fun v => (v, "not set")) :=
  c6_env_defaults (fun _ => none) (fun _ _ => rfl)

/-- Claim C7: for every successful timed workload — modelled by a
positive elapsed time, since a zero elapsed time would raise
`ZeroDivisionError` and the run would not be successful — the TFLOPS,
GFLOPS and GB/s figures are positive (and, as exact rationals, finite);
the divisor is the elapsed time, which is nonzero. -/
theorem c7_throughputs_positive
    (size batch outCh imgSize inCh elements : Nat) (t : ℚ)
    (ht : 0 < t) (hsize : 0 < size) (hb : 0 < batch) (ho : 0 < outCh)
    (hi : 0 < imgSize) (hic : 0 < inCh) (he : 0 < elements) :
    0 < matmul_tflops size t
    ∧ 0 < conv_gflops batch outCh imgSize inCh t
    ∧ 0 < bandwidth_gb_s elements t := by
  have hs2 : (0 : ℚ) < size := by exact_mod_cast hsize
  have hb2 : (0 : ℚ) < batch := by exact_mod_cast hb
  have ho2 : (0 : ℚ) < outCh := by exact_mod_cast ho
  have hi2 : (0 : ℚ) < imgSize := by exact_mod_cast hi
  have hic2 : (0 : ℚ) < inCh := by exact_mod_cast hic
  have he2 : (0 : ℚ) < elements := by exact_mod_cast he
  refine ⟨?_, ?_, ?_⟩
  · unfold matmul_tflops
    exact div_pos (div_pos
      (mul_pos (by norm_num : (0 : ℚ) < 2) (pow_pos hs2 3)) ht) (by norm_num)
  · unfold conv_gflops
    exact div_pos (div_pos
      (mul_pos (mul_pos (mul_pos (mul_pos (mul_pos hb2 ho2) hi2) hi2) hic2)
        (by norm_num : (0 : ℚ) < 9)) ht) (by norm_num)
  · unfold bandwidth_gb_s
    exact div_pos (div_pos
      (mul_pos (mul_pos he2 (by norm_num : (0 : ℚ) < 4))
        (by norm_num : (0 : ℚ) < 2)) ht) (by norm_num)

/-- Witness for C7, at the benchmark's concrete configuration values
(size 1000, the first convolution configuration, the 100 MB copy) and
elapsed time 1 second. -/
theorem c7_witness :
    0 < matmul_tflops 1000 1
    ∧ 0 < conv_gflops 32 64 224 3 1
    ∧ 0 < bandwidth_gb_s 26214400 1 :=
  c7_throughputs_positive 1000 32 64 224 3 26214400 1
    (by norm_num) (by norm_num) (by norm_num) (by norm_num)
    (by norm_num) (by norm_num) (by norm_num)

/-- Claim C8: the reported shapes equal the requested dimensions — the
probe's product of two `hello_size` square matrices has shape
`[hello_size, hello_size]`, and every configured convolution's reported
output shape is `[batch, outCh, imgSize, imgSize]`. -/
theorem c8_reported_shapes (gpu : Bool) (c : ConvConfig)
    (hc : c ∈ conv_configs) :
    reported_conv_shape gpu c
      = [conv_batch_size gpu, c.outCh, c.imgSize, c.imgSize]
    ∧ hello_mm_report = [hello_size, hello_size] := by
  refine ⟨?_, by decide⟩
  simp [conv_configs] at hc
  rcases hc with h | h | h | h <;> subst h <;> cases gpu <;> decide

/-- Witness for C8, at the first convolution configuration on GPU. -/
theorem c8_witness :
    reported_conv_shape true ⟨3, 64, 224, "First conv layer"⟩
      = [conv_batch_size true, 64, 224, 224]
    ∧ hello_mm_report = [hello_size, hello_size] :=
  c8_reported_shapes true ⟨3, 64, 224, "First conv layer"⟩ (by decide)

/-- Claim C9: in the single-device fallback the multi-process script
still creates a collective-communication group — `run_gpu_test(0, 1)`
sets `MASTER_ADDR` and `MASTER_PORT`, initializes a process group with
backend `nccl`, rank 0, world size 1, and destroys the group as its
last action. -/
theorem c9_fallback_creates_group :
    (multigpu_main true 1).2 = [MGAction.runTest 0 1]
    ∧ DistAction.setEnvVar "MASTER_ADDR" "localhost" ∈ run_gpu_test 0 1
    ∧ DistAction.setEnvVar "MASTER_PORT" "12355" ∈ run_gpu_test 0 1
    ∧ DistAction.initProcessGroup "nccl" 0 1 ∈ run_gpu_test 0 1
    ∧ (run_gpu_test 0 1).getLast? = some DistAction.destroyProcessGroup := by
  decide

/-- Claim C10: if any of `WORLD_SIZE`, `RANK` or `LOCAL_RANK` is set to
a string that does not parse as an integer, the probe script's `int`
conversion raises, the broad boundary catches it, and the script exits
with code 1. -/
theorem c10_unparseable_env_exits_one (env : Env) (v s : String)
    (hv : v ∈ intEnvVars) (hset : env v = some s)
    (hbad : parsePyInt s = none) :
    (hello_main env).1 = 1 := by
  cases hrc : run_checks env with
  | error msg => simp [hello_main, hrc]
  | ok u =>
    exfalso
    obtain ⟨t, ht⟩ := test_distributed_ok_of_run_checks env hrc
    obtain ⟨⟨a, ha⟩, ⟨b, hb⟩, ⟨c, hc⟩⟩ :=
      getIntEnv_ok_of_test_distributed env t ht
    simp [intEnvVars] at hv
    rcases hv with h | h | h <;> subst h
    · obtain ⟨m, hm⟩ := parse_ok_of_getIntEnv_ok env _ s 1 a hset ha
      rw [hbad] at hm; cases hm
    · obtain ⟨m, hm⟩ := parse_ok_of_getIntEnv_ok env _ s 0 b hset hb
      rw [hbad] at hm; cases hm
    · obtain ⟨m, hm⟩ := parse_ok_of_getIntEnv_ok env _ s 0 c hset hc
      rw [hbad] at hm; cases hm

/-- Witness for C10, at an environment whose `RANK` is the
non-integer string `x1`. -/
theorem c10_witness :
    (hello_main (fun v => if v = "RANK" then some "x1" else none)).1 = 1 :=
  c10_unparseable_env_exits_one
    (fun v => if v = "RANK" then some "x1" else none) "RANK" "x1"
    (by decide) rfl rfl
